import Mathlib

/-!
Verification of the service lifecycle of the EdgeX device-service SDK for C
(files src/c/service.c and src/c/metrics.c).  The C code is shallowly
embedded: each external collaborator (REST clients, registry, TOML loader,
driver callbacks) is an oracle supplied through an environment record, and
the startup / shutdown sequences are modelled as functions producing the
trace of externally visible actions together with the resulting error code.
-/

namespace EdgexService

/-- Error codes of errorlist.h that service.c can produce.  `FAIL` stands for
any error other than the named ones (the code only ever compares against
`EDGEX_HTTP_CONFLICT.code` and zero, so the distinction is immaterial). -/
inductive Err
  | OK
  | NO_DEVICE_IMPL
  | NO_DEVICE_NAME
  | NO_DEVICE_VERSION
  | INVALID_ARG
  | BAD_CONFIG
  | REMOTE_SERVER_DOWN
  | DRIVER_UNSTART
  | HTTP_CONFLICT
  | FAIL
deriving DecidableEq

/-- HTTP methods used by the service (edgex_http_method). -/
inductive Method
  | GET
  | PUT
  | POST
  | DELETE
deriving DecidableEq

/-- Outcome of a metadata create_* call: created, HTTP 409 CONFLICT,
or any other error. -/
inductive COutcome
  | ok
  | conflict
  | fail
deriving DecidableEq

/-- The REST endpoints registered by startConfigured. -/
inductive Endpoint
  | callback
  | device
  | discovery
  | metrics
  | config
  | ping
deriving DecidableEq

/-- Externally visible actions of edgex_device_service_start / startConfigured,
in the order the C code performs them.  Logging to file/REST log sinks and
debug logs are omitted; info/error logs of the reconciliation loops are kept
because the spec talks about them. -/
inductive Action
  | getRegistryClient
  | pingRegistry
  | getRegistryConfig
  | populateConfigNV
  | loadConfigFile
  | populateConfig
  | validateConfig
  | uploadConfig
  | pingData
  | pingMeta
  | getDeviceService
  | getSvcAddressable
  | createSvcAddressable
  | createDeviceService
  | profilesUpload
  | loadDevices
  | createRestServer
  | registerHandler (e : Endpoint)
  | processConfiguredDevices
  | driverInit
  | createSchedule (n : String)
  | createAddressable (n : String)
  | createScheduleEvent (n : String)
  | getScheduleEvents
  | getSchedule (n : String)
  | addSchedule (discovery : Bool)
  | schedulerStart
  | registerInRegistry
  | logInfo (msg : String)
  | logError (msg : String)
deriving DecidableEq

/-- Teardown actions of edgex_device_service_stop, service.c lines 743-788. -/
inductive StopAction
  | schedulerStop
  | schedulerFini
  | serverDestroy
  | driverStop (force : Bool)
  | poolDestroy
  | drainJobs
  | freeConfig
  | freeLogger
  | freeNameToId
  | freeDevices
  | freeProfiles
  | registryFini
  | freeService
deriving DecidableEq

/-- URL constants from service.c lines 31-36. -/
def discoveryPath : String := "/api/v1/discovery"

/-- The device-command URL family root (EDGEX_DEV_API_DEVICE). -/
def devApiDevice : String := "/api/v1/device/"

/-- strncmp (p, EDGEX_DEV_API_DEVICE, strlen (EDGEX_DEV_API_DEVICE)) == 0:
the device command path is an initial segment of p.  (Char-wise; the C
comparison is byte-wise on UTF-8, which agrees on these ASCII constants.) -/
def devPathPre (p : String) : Bool := devApiDevice.data.isPrefixOf p.data

/-- MHD_HTTP_OK. -/
def MHD_HTTP_OK : Nat := 200

/-- POOL_THREADS, service.c line 40. -/
def POOL_THREADS : Nat := 8

/-- The service handle as initialised by edgex_device_service_new
(service.c lines 87-110): zeroed struct, name/version stored, rwlock and
mutexes initialised, both maps initialised empty, no scheduled jobs, a
worker pool of POOL_THREADS threads, scheduler initialised on that pool. -/
structure DeviceServiceHandle where
  name : String
  version : String
  locksInit : Bool
  devices : List (String × String)
  name_to_id : List (String × String)
  sjobs : List String
  poolThreads : Nat
  schedulerInit : Bool
deriving DecidableEq

/-- edgex_device_service_new, service.c lines 55-111.  NULL C strings are
`none`; the opaque impldata pointer is `Option Unit` (only its NULLness is
tested).  `strlen (s) == 0` is rendered as equality with the empty string. -/
def edgex_device_service_new (name : Option String) (version : Option String)
    (impldata : Option Unit) : Option DeviceServiceHandle × Err :=
  match impldata with
  | none => (none, Err.NO_DEVICE_IMPL)
  | some _ =>
    match name with
    | none => (none, Err.NO_DEVICE_NAME)
    | some n =>
      if n = "" then (none, Err.NO_DEVICE_NAME)
      else
        match version with
        | none => (none, Err.NO_DEVICE_VERSION)
        | some v =>
          if v = "" then (none, Err.NO_DEVICE_VERSION)
          else
            (some { name := n, version := v, locksInit := true, devices := [],
                    name_to_id := [], sjobs := [], poolThreads := POOL_THREADS,
                    schedulerInit := true }, Err.OK)

/-- An HTTP reply as assembled by a handler: status, body, content type. -/
structure HttpReply where
  status : Nat
  body : String
  contentType : String
deriving DecidableEq

/-- ping_handler, service.c lines 113-127.  The context, url, method and
upload data are ignored by the handler; url and method are kept as arguments
to show this. -/
def ping_handler (_url : String) (_method : Method) : HttpReply :=
  { status := MHD_HTTP_OK,
    body := "\x7b\"value\":\"pong\"\x7d\n",
    contentType := "application/json" }

/-- edgex_device_service_stop, service.c lines 743-788, as the sequence of
teardown actions it performs.  `hasScheduler` / `hasDaemon` model the NULL
tests on svc->scheduler and svc->daemon. -/
def edgex_device_service_stop (hasScheduler : Bool) (hasDaemon : Bool)
    (force : Bool) : List StopAction :=
  (if hasScheduler then [StopAction.schedulerStop, StopAction.schedulerFini] else [])
  ++ (if hasDaemon then [StopAction.serverDestroy] else [])
  ++ [StopAction.driverStop force, StopAction.poolDestroy, StopAction.drainJobs,
      StopAction.freeConfig, StopAction.freeLogger, StopAction.freeNameToId,
      StopAction.freeDevices, StopAction.freeProfiles, StopAction.registryFini,
      StopAction.freeService]

/-- The retry loop `while (!ping () && --retries) nanosleep (&delay, NULL);`
followed by `if (retries == 0) *err = EDGEX_REMOTE_SERVER_DOWN` (service.c
lines 211-221, 223-235, 647-659), for an initial retries value of at least 1.
`r + 1` is the current value of `retries`; a failed ping decrements it and the
loop exits with the error exactly when it reaches 0.  Returns (exhausted,
number of pings made), the i-th ping attempt being `ping (start + i)`.
(The C loop entered with retries = 0 would decrement the int past zero; no
call site does that, and it is not modelled: the `0` case is a sentinel.) -/
def pingLoop (ping : Nat → Bool) : Nat → Nat → Bool × Nat
  | 0, _ => (true, 0)
  | r + 1, i =>
    if ping i then (false, 1)
    else if r = 0 then (true, 1)
    else
      let rest := pingLoop ping r (i + 1)
      (rest.1, rest.2 + 1)

/-- The nanosleep delay of the core-data/core-metadata ping loops,
service.c lines 206-210: tv_sec = timeout / 1000, tv_nsec = 1000000 *
(timeout % 1000), expressed in nanoseconds. -/
def coreDelayNanos (timeout : Nat) : Nat :=
  (timeout / 1000) * 1000000000 + 1000000 * (timeout % 1000)

/-- The registry ping delay, service.c line 648: tv_sec = 1, tv_nsec = 0. -/
def registryDelayNanos : Nat := 1 * 1000000000 + 0

/-- A configured schedule-event (edgex_device_scheduleeventinfo): the schedule
it fires on and the URL path it invokes. -/
structure SchedEventInfo where
  schedule : String
  path : String
deriving DecidableEq

/-- A schedule-event as fetched back from metadata
(edgex_metadata_client_get_scheduleevents): its name, schedule name, and the
path of its addressable. -/
structure FetchedEvent where
  name : String
  schedule : String
  path : String
deriving DecidableEq

/-- The log line emitted after a metadata create_* call, per the three-way
`if (err->code == 0) / else if (err->code == EDGEX_HTTP_CONFLICT.code) / else`
shape used at service.c lines 393-405, 441-455 and 471-484. -/
def createLog (kind : String) (n : String) : COutcome → Action
  | COutcome.ok => Action.logInfo ("Created " ++ kind ++ " " ++ n)
  | COutcome.conflict => Action.logInfo ("Skipping already existing " ++ kind ++ " " ++ n)
  | COutcome.fail => Action.logError ("Unable to create " ++ kind ++ " " ++ n)

/-- The Schedules upload loop, service.c lines 375-406.  `create` is the
outcome of edgex_metadata_client_create_schedule for a given schedule name.
CONFLICT is logged and skipped; any other error returns from startConfigured
(a trailing CONFLICT in *err is reset before the next external call, so the
loop result is OK).  Returns the (trace, error) of the loop. -/
def schedulesLoop (create : String → COutcome) : List String → List Action × Err
  | [] => ([], Err.OK)
  | n :: rest =>
    let o := create n
    if o = COutcome.fail then
      ([Action.createSchedule n, createLog "schedule" n o], Err.FAIL)
    else
      let r := schedulesLoop create rest
      (Action.createSchedule n :: createLog "schedule" n o :: r.1, r.2)

/-- The validity test on a schedule-event path, service.c lines 413-418:
the path is rejected when `strcmp (path, EDGEX_DEV_API_DISCOVERY)` and
`strncmp (path, EDGEX_DEV_API_DEVICE, strlen (EDGEX_DEV_API_DEVICE))` are
both nonzero, i.e. it is accepted when it equals the discovery path or the
device command path is one of its initial segments. -/
def schedEventPathOk (p : String) : Bool :=
  !(!(p == discoveryPath) && !(devPathPre p))

/-- The ScheduleEvents upload loop, service.c lines 408-485.  Each configured
event's path must pass `schedEventPathOk`, else BAD_CONFIG; then an
addressable named `<event>_addr` and the schedule-event itself are created,
with the CONFLICT handling of `createLog`. -/
def eventsLoop (ca : String → COutcome) (ce : String → COutcome) :
    List (String × SchedEventInfo) → List Action × Err
  | [] => ([], Err.OK)
  | (n, info) :: rest =>
    if !(schedEventPathOk info.path) then
      ([Action.logError ("Scheduled Event " ++ n ++
          " not valid, only discovery and device commands are allowed")],
       Err.BAD_CONFIG)
    else
      let addrName := n ++ "_addr"
      let o1 := ca addrName
      if o1 = COutcome.fail then
        ([Action.createAddressable addrName, createLog "addressable" addrName o1], Err.FAIL)
      else
        let o2 := ce n
        if o2 = COutcome.fail then
          ([Action.createAddressable addrName, createLog "addressable" addrName o1,
            Action.createScheduleEvent n, createLog "ScheduleEvent" n o2], Err.FAIL)
        else
          let r := eventsLoop ca ce rest
          (Action.createAddressable addrName :: createLog "addressable" addrName o1 ::
            Action.createScheduleEvent n :: createLog "ScheduleEvent" n o2 :: r.1, r.2)

/-- The loop over schedule-events fetched back from metadata, service.c lines
502-568.  `gs` says whether fetching a schedule succeeds, `freq` is its
frequency string, `parse` is edgex_device_config_parse8601 (an external
collaborator).  A discovery-path event becomes a discovery job; a device-path
event stashes a job holding the path suffix after "/api/v1/device/" (the
C code's `path + strlen (EDGEX_DEV_API_DEVICE)`), pushed onto the front of
svc->sjobs; any other path is BAD_CONFIG.  Returns (trace, error, sjobs). -/
def fetchLoop (gs : String → Bool) (freq : String → String)
    (parse : String → Except String Nat) :
    List FetchedEvent → List String → List Action × Err × List String
  | [], sjobs => ([], Err.OK, sjobs)
  | e :: rest, sjobs =>
    if gs e.schedule = false then
      ([Action.getSchedule e.schedule,
        Action.logError ("Unable to obtain Schedule " ++ e.schedule ++ " from metadata")],
       Err.FAIL, sjobs)
    else
      match parse (freq e.schedule) with
      | Except.error estr =>
        ([Action.getSchedule e.schedule,
          Action.logError ("Unable to parse frequency for schedule " ++
            e.schedule ++ ", " ++ estr)],
         Err.BAD_CONFIG, sjobs)
      | Except.ok _ =>
        if e.path = discoveryPath then
          let r := fetchLoop gs freq parse rest sjobs
          (Action.getSchedule e.schedule :: Action.addSchedule true :: r.1, r.2.1, r.2.2)
        else if devPathPre e.path then
          let url := e.path.drop devApiDevice.length
          let r := fetchLoop gs freq parse rest (url :: sjobs)
          (Action.getSchedule e.schedule :: Action.addSchedule false :: r.1, r.2.1, r.2.2)
        else
          ([Action.getSchedule e.schedule,
            Action.logError "Scheduled Event is invalid, only discovery and device commands are allowed"],
           Err.BAD_CONFIG, sjobs)

/-- Outcomes of the external collaborators consumed by startConfigured.
Option-of-Option results model `err` / found-NULL: `none` is an error return,
`some none` a successful lookup that found nothing. -/
structure StartEnv where
  validateOk : Bool
  putConfigOk : Bool
  dataPing : Nat → Bool
  metaPing : Nat → Bool
  getDeviceService : Option (Option Unit)
  getAddressable : Option (Option Unit)
  createSvcAddressableOk : Bool
  createDeviceServiceOk : Bool
  profilesUploadOk : Bool
  loadDevicesOk : Bool
  serverCreateOk : Bool
  processConfiguredOk : Bool
  driverInitOk : Bool
  createSchedule : String → COutcome
  createAddressable : String → COutcome
  createScheduleEvent : String → COutcome
  getScheduleEvents : Option (List FetchedEvent)
  getSchedule : String → Bool
  scheduleFrequency : String → String
  parse8601 : String → Except String Nat
  registerServiceOk : Bool

/-- The parts of the populated service configuration that startConfigured
reads, plus the two facts the wrapper passes it implicitly: whether a TOML
tree was loaded (`config != NULL`) and whether a registry client exists. -/
structure StartCfg where
  connectretries : Nat
  timeout : Nat
  schedules : List String
  scheduleevents : List (String × SchedEventInfo)
  hasConfigToml : Bool
  registryPresent : Bool
  checkinterval : Bool

/-- startConfigured, final part (service.c lines 589-610): registration with
the service registry when one is in use and a check interval is configured.
(The startup-message debug log at 607-610 is not an external action.) -/
def stageFinal (env : StartEnv) (cfg : StartCfg) : List Action × Err :=
  if cfg.registryPresent && cfg.checkinterval then
    if env.registerServiceOk then ([Action.registerInRegistry], Err.OK)
    else ([Action.registerInRegistry,
           Action.logError "Unable to register service in registry"], Err.FAIL)
  else ([], Err.OK)

/-- startConfigured lines 570-587: start the scheduler, then register the
metrics, config and ping handlers. -/
def stageAux (env : StartEnv) (cfg : StartCfg) : List Action × Err :=
  let r := stageFinal env cfg
  (Action.schedulerStart :: Action.registerHandler Endpoint.metrics ::
     Action.registerHandler Endpoint.config ::
     Action.registerHandler Endpoint.ping :: r.1, r.2)

/-- startConfigured lines 487-568: fetch the schedule-events from metadata
and process them with `fetchLoop` (the resulting job list lives on the
service struct and is not needed beyond this point). -/
def stageFetch (env : StartEnv) (cfg : StartCfg) : List Action × Err :=
  match env.getScheduleEvents with
  | none => ([Action.getScheduleEvents,
              Action.logError "Unable to obtain ScheduleEvents from metadata"], Err.FAIL)
  | some evs =>
    let r := fetchLoop env.getSchedule env.scheduleFrequency env.parse8601 evs []
    if r.2.1 ≠ Err.OK then (Action.getScheduleEvents :: r.1, r.2.1)
    else
      let r2 := stageAux env cfg
      (Action.getScheduleEvents :: (r.1 ++ r2.1), r2.2)

/-- startConfigured lines 373-485: upload the configured Schedules and
ScheduleEvents. -/
def stageScheds (env : StartEnv) (cfg : StartCfg) : List Action × Err :=
  let r := schedulesLoop env.createSchedule cfg.schedules
  if r.2 ≠ Err.OK then r
  else
    let r2 := eventsLoop env.createAddressable env.createScheduleEvent cfg.scheduleevents
    if r2.2 ≠ Err.OK then (r.1 ++ r2.1, r2.2)
    else
      let r3 := stageFetch env cfg
      (r.1 ++ r2.1 ++ r3.1, r3.2)

/-- startConfigured lines 351-371: driver init (DRIVER_UNSTART on failure),
then registration of the device and discovery handlers. -/
def stageInit (env : StartEnv) (cfg : StartCfg) : List Action × Err :=
  if !env.driverInitOk then
    ([Action.driverInit, Action.logError "Protocol driver initialization failed"],
     Err.DRIVER_UNSTART)
  else
    let r := stageScheds env cfg
    (Action.driverInit :: Action.registerHandler Endpoint.device ::
       Action.registerHandler Endpoint.discovery :: r.1, r.2)

/-- startConfigured lines 339-349: process the DeviceList of the TOML
configuration, when a TOML tree was loaded (`if (config)`). -/
def stageDriver (env : StartEnv) (cfg : StartCfg) : List Action × Err :=
  if cfg.hasConfigToml then
    if !env.processConfiguredOk then ([Action.processConfiguredDevices], Err.FAIL)
    else
      let r := stageInit env cfg
      (Action.processConfiguredDevices :: r.1, r.2)
  else stageInit env cfg

/-- startConfigured lines 324-337: create the REST server and register the
callback handler on it. -/
def stageServer (env : StartEnv) (cfg : StartCfg) : List Action × Err :=
  if !env.serverCreateOk then ([Action.createRestServer], Err.FAIL)
  else
    let r := stageDriver env cfg
    (Action.createRestServer :: Action.registerHandler Endpoint.callback :: r.1, r.2)

/-- startConfigured lines 308-322: upload the device profiles found on disk,
then load this service's devices from metadata into the cache. -/
def stageProfiles (env : StartEnv) (cfg : StartCfg) : List Action × Err :=
  if !env.profilesUploadOk then ([Action.profilesUpload], Err.FAIL)
  else if !env.loadDevicesOk then ([Action.profilesUpload, Action.loadDevices], Err.FAIL)
  else
    let r := stageServer env cfg
    (Action.profilesUpload :: Action.loadDevices :: r.1, r.2)

/-- startConfigured lines 239-306: look up the device service in metadata;
if absent, look up its addressable, creating one if that is absent too, and
create the device service. -/
def stageMeta (env : StartEnv) (cfg : StartCfg) : List Action × Err :=
  match env.getDeviceService with
  | none => ([Action.getDeviceService, Action.logError "get_deviceservice failed"], Err.FAIL)
  | some (some _) =>
    let r := stageProfiles env cfg
    (Action.getDeviceService :: r.1, r.2)
  | some none =>
    match env.getAddressable with
    | none => ([Action.getDeviceService, Action.getSvcAddressable,
                Action.logError "get_addressable failed"], Err.FAIL)
    | some (some _) =>
      if !env.createDeviceServiceOk then
        ([Action.getDeviceService, Action.getSvcAddressable,
          Action.createDeviceService], Err.FAIL)
      else
        let r := stageProfiles env cfg
        (Action.getDeviceService :: Action.getSvcAddressable ::
           Action.createDeviceService :: r.1, r.2)
    | some none =>
      if !env.createSvcAddressableOk then
        ([Action.getDeviceService, Action.getSvcAddressable,
          Action.createSvcAddressable], Err.FAIL)
      else if !env.createDeviceServiceOk then
        ([Action.getDeviceService, Action.getSvcAddressable,
          Action.createSvcAddressable, Action.createDeviceService], Err.FAIL)
      else
        let r := stageProfiles env cfg
        (Action.getDeviceService :: Action.getSvcAddressable ::
           Action.createSvcAddressable :: Action.createDeviceService :: r.1, r.2)

/-- startConfigured lines 203-237: wait for core-data and core-metadata, each
with `connectretries` attempts at `timeout` ms spacing; exhaustion is
REMOTE_SERVER_DOWN. -/
def stagePings (env : StartEnv) (cfg : StartCfg) : List Action × Err :=
  if (pingLoop env.dataPing cfg.connectretries 0).1 then
    ([Action.pingData, Action.logError "core-data service not running"],
     Err.REMOTE_SERVER_DOWN)
  else if (pingLoop env.metaPing cfg.connectretries 0).1 then
    ([Action.pingData, Action.pingMeta,
      Action.logError "core-metadata service not running"],
     Err.REMOTE_SERVER_DOWN)
  else
    let r := stageMeta env cfg
    (Action.pingData :: Action.pingMeta :: r.1, r.2)

/-- startConfigured, service.c lines 151-611.  `profile` is the profile name
argument, non-none exactly when the caller decided the file-loaded
configuration must be uploaded to the registry (the `if (profile)` at line
177 guards the upload). -/
def startConfigured (env : StartEnv) (cfg : StartCfg) (profile : Option String) :
    List Action × Err :=
  if !env.validateOk then ([Action.validateConfig], Err.FAIL)
  else
    match profile with
    | some _ =>
      if !env.putConfigOk then
        ([Action.validateConfig, Action.uploadConfig,
          Action.logError "Unable to upload config"], Err.FAIL)
      else
        let r := stagePings env cfg
        (Action.validateConfig :: Action.uploadConfig :: r.1, r.2)
    | none =>
      let r := stagePings env cfg
      (Action.validateConfig :: r.1, r.2)

/-- Outcomes of the collaborators consumed by edgex_device_service_start
before it reaches startConfigured. -/
structure WrapEnv where
  getRegistryOk : Bool
  regPing : Nat → Bool
  getConfigFromRegistry : Bool
  populateNVOk : Bool
  loadConfigOk : Bool
  start : StartEnv

/-- edgex_device_service_start, service.c lines 613-704.  With a registry
URL: obtain a client (INVALID_ARG on failure), ping it up to 5 times at 1 s
intervals, then try the registry for configuration; on success populate from
the name/value pairs, otherwise fall back to the TOML file and mark the
configuration for upload.  Without a registry URL, load from file.  The
profile name reaches startConfigured only via `uploadConfig ? profile :
NULL` (line 700).  populateConfig's error is not checked by the C code
before startConfigured runs, and validateConfig is what catches it. -/
def edgex_device_service_start (wenv : WrapEnv) (cfg : StartCfg)
    (registryURL : Option String) (profile : Option String) : List Action × Err :=
  match registryURL with
  | some _ =>
    if !wenv.getRegistryOk then ([Action.getRegistryClient], Err.INVALID_ARG)
    else if (pingLoop wenv.regPing 5 0).1 then
      ([Action.getRegistryClient, Action.pingRegistry,
        Action.logError "registry service not running"], Err.REMOTE_SERVER_DOWN)
    else if wenv.getConfigFromRegistry then
      if !wenv.populateNVOk then
        ([Action.getRegistryClient, Action.pingRegistry, Action.getRegistryConfig,
          Action.populateConfigNV], Err.FAIL)
      else
        let r := startConfigured wenv.start
          { cfg with hasConfigToml := false, registryPresent := true } none
        (Action.getRegistryClient :: Action.pingRegistry :: Action.getRegistryConfig ::
           Action.populateConfigNV :: r.1, r.2)
    else
      if !wenv.loadConfigOk then
        ([Action.getRegistryClient, Action.pingRegistry, Action.getRegistryConfig,
          Action.loadConfigFile], Err.FAIL)
      else
        let r := startConfigured wenv.start
          { cfg with hasConfigToml := true, registryPresent := true } profile
        (Action.getRegistryClient :: Action.pingRegistry :: Action.getRegistryConfig ::
           Action.loadConfigFile :: Action.populateConfig :: r.1, r.2)
  | none =>
    if !wenv.loadConfigOk then ([Action.loadConfigFile], Err.FAIL)
    else
      let r := startConfigured wenv.start
        { cfg with hasConfigToml := true, registryPresent := false } none
      (Action.loadConfigFile :: Action.populateConfig :: r.1, r.2)

/-- dev_invoker, service.c lines 129-149: a scheduled device-URL job fires a
GET through edgex_device_handler_device with the stored URL suffix, and logs
an error naming the URL and the status whenever the reply status is not
MHD_HTTP_OK.  `dispatch` is the device dispatcher; the function returns the
log line emitted, if any. -/
def dev_invoker (dispatch : Method → String → Nat) (url : String) : Option String :=
  let rc := dispatch Method.GET url
  if rc ≠ MHD_HTTP_OK then
    some ("Scheduled request to " ++ devApiDevice ++ url ++ ": HTTP " ++ toString rc)
  else none

/-- Modelled from the spec: the statuses the device dispatcher
(edgex_device_handler_device, whose definition is not among the sources
here) can reply with, per section 4.D of the spec: success, and the errors
404 (missing device), 423 (locked), 503 (disabled), 500 (driver or
transform failure), 400 (type mismatch on PUT). -/
def dispatcherStatuses : List Nat := [200, 400, 404, 423, 500, 503]

/-- First index of an action in a trace. -/
def idxOf (l : List Action) (a : Action) : Option Nat :=
  l.findIdx? (fun x => x = a)

/-- Both actions occur in the trace and the first occurrence of `a` precedes
the first occurrence of `b`. -/
def beforeB (l : List Action) (a b : Action) : Bool :=
  match idxOf l a, idxOf l b with
  | some i, some j => i < j
  | _, _ => false

/-- An all-successful environment used for concrete runs. -/
def allOkStart : StartEnv :=
  { validateOk := true, putConfigOk := true,
    dataPing := fun _ => true, metaPing := fun _ => true,
    getDeviceService := some (some ()), getAddressable := some (some ()),
    createSvcAddressableOk := true, createDeviceServiceOk := true,
    profilesUploadOk := true, loadDevicesOk := true, serverCreateOk := true,
    processConfiguredOk := true, driverInitOk := true,
    createSchedule := fun _ => COutcome.ok,
    createAddressable := fun _ => COutcome.ok,
    createScheduleEvent := fun _ => COutcome.ok,
    getScheduleEvents := some [], getSchedule := fun _ => true,
    scheduleFrequency := fun _ => "PT5S",
    parse8601 := fun _ => Except.ok 5,
    registerServiceOk := true }

/-- A minimal concrete configuration for concrete runs. -/
def cfg0 : StartCfg :=
  { connectretries := 1, timeout := 1000, schedules := [], scheduleevents := [],
    hasConfigToml := false, registryPresent := false, checkinterval := false }

/-- A wrapper environment in which the registry is reachable but returns no
configuration, so the file fallback is taken. -/
def wrapFallback : WrapEnv :=
  { getRegistryOk := true, regPing := fun _ => true,
    getConfigFromRegistry := false, populateNVOk := true, loadConfigOk := true,
    start := allOkStart }

/-- Every step of startConfigured before the Schedules upload loop succeeds
(configuration valid, both core services answer a ping within the retry
budget, the device service is already registered, profiles upload, devices
load, the REST server comes up, configured devices process, driver init
succeeds). -/
def reachScheds (env : StartEnv) (cfg : StartCfg) : Prop :=
  env.validateOk = true ∧
  (pingLoop env.dataPing cfg.connectretries 0).1 = false ∧
  (pingLoop env.metaPing cfg.connectretries 0).1 = false ∧
  env.getDeviceService = some (some ()) ∧
  env.profilesUploadOk = true ∧
  env.loadDevicesOk = true ∧
  env.serverCreateOk = true ∧
  cfg.hasConfigToml = true ∧
  env.processConfiguredOk = true ∧
  env.driverInitOk = true

/-- `reachScheds`, and the Schedules upload loop itself completes. -/
def reachEvents (env : StartEnv) (cfg : StartCfg) : Prop :=
  reachScheds env cfg ∧
  (schedulesLoop env.createSchedule cfg.schedules).2 = Err.OK

/-- Every external call on the startConfigured happy path succeeds. -/
def fullSuccess (env : StartEnv) (cfg : StartCfg) : Prop :=
  reachEvents env cfg ∧
  (eventsLoop env.createAddressable env.createScheduleEvent cfg.scheduleevents).2 = Err.OK ∧
  env.getScheduleEvents ≠ none ∧
  (fetchLoop env.getSchedule env.scheduleFrequency env.parse8601
    (env.getScheduleEvents.getD []) []).2.1 = Err.OK

/-!  Theorems.  -/

/-- C3: edgex_device_service_new validates its arguments in order — NULL
implementation object gives NO_DEVICE_IMPL, then NULL or empty name gives
NO_DEVICE_NAME, then NULL or empty version gives NO_DEVICE_VERSION — and on
valid arguments returns OK together with a non-NULL handle whose locks are
initialised, whose device and name-to-id maps are empty, whose job list is
empty, whose worker pool has POOL_THREADS threads and whose scheduler is
initialised. -/
theorem c3_service_new_validation (name version : Option String)
    (n v : String) (hn : n ≠ "") (hv : v ≠ "") :
    edgex_device_service_new name version none = (none, Err.NO_DEVICE_IMPL)
  ∧ edgex_device_service_new none version (some ()) = (none, Err.NO_DEVICE_NAME)
  ∧ edgex_device_service_new (some "") version (some ()) = (none, Err.NO_DEVICE_NAME)
  ∧ edgex_device_service_new (some n) none (some ()) = (none, Err.NO_DEVICE_VERSION)
  ∧ edgex_device_service_new (some n) (some "") (some ()) = (none, Err.NO_DEVICE_VERSION)
  ∧ edgex_device_service_new (some n) (some v) (some ()) =
      (some { name := n, version := v, locksInit := true, devices := [],
              name_to_id := [], sjobs := [], poolThreads := POOL_THREADS,
              schedulerInit := true }, Err.OK) := by
  refine ⟨rfl, rfl, rfl, ?_, ?_, ?_⟩ <;>
    simp [edgex_device_service_new, hn, hv]

/-- Witness for C3 at concrete arguments. -/
theorem c3_service_new_validation_witness :
    edgex_device_service_new (some "a") (some "b") none = (none, Err.NO_DEVICE_IMPL)
  ∧ edgex_device_service_new none (some "b") (some ()) = (none, Err.NO_DEVICE_NAME)
  ∧ edgex_device_service_new (some "") (some "b") (some ()) = (none, Err.NO_DEVICE_NAME)
  ∧ edgex_device_service_new (some "dev") none (some ()) = (none, Err.NO_DEVICE_VERSION)
  ∧ edgex_device_service_new (some "dev") (some "") (some ()) = (none, Err.NO_DEVICE_VERSION)
  ∧ edgex_device_service_new (some "dev") (some "1.0") (some ()) =
      (some { name := "dev", version := "1.0", locksInit := true, devices := [],
              name_to_id := [], sjobs := [], poolThreads := POOL_THREADS,
              schedulerInit := true }, Err.OK) :=
  c3_service_new_validation (some "a") (some "b") "dev" "1.0"
    (by decide) (by decide)

/-- C8: edgex_device_service_stop tears down in exactly the order: scheduler
stop and fini, HTTP server destroy, driver stop (with the force flag), worker
pool destroy, scheduled-job drain, config free, logger free, cache frees,
and finally the service struct free; in particular the HTTP server is
destroyed before the worker pool whenever a server exists. -/
theorem c8_stop_order (hs f : Bool) :
    edgex_device_service_stop true true f =
      [StopAction.schedulerStop, StopAction.schedulerFini, StopAction.serverDestroy,
       StopAction.driverStop f, StopAction.poolDestroy, StopAction.drainJobs,
       StopAction.freeConfig, StopAction.freeLogger, StopAction.freeNameToId,
       StopAction.freeDevices, StopAction.freeProfiles, StopAction.registryFini,
       StopAction.freeService]
  ∧ [StopAction.serverDestroy, StopAction.poolDestroy].Sublist
      (edgex_device_service_stop hs true f) := by
  constructor
  · rfl
  · cases hs <;> cases f <;> decide

/-- C10 counterexample: the body of the ping reply is not exactly the JSON
object — the handler appends a newline (service.c line 124). -/
theorem c10_ping_reply_counterexample :
    ¬ ((ping_handler "/api/v1/ping" Method.GET).status = 200
     ∧ (ping_handler "/api/v1/ping" Method.GET).body = "\x7b\"value\":\"pong\"\x7d"
     ∧ (ping_handler "/api/v1/ping" Method.GET).contentType = "application/json") := by
  decide

/-- C10 (amended): every invocation of the ping handler replies HTTP 200 with
content type application/json and a body that is the JSON object
followed by a single trailing newline. -/
theorem c10_ping_reply (url : String) (m : Method) :
    (ping_handler url m).status = 200
  ∧ (ping_handler url m).body = "\x7b\"value\":\"pong\"\x7d\n"
  ∧ (ping_handler url m).contentType = "application/json" :=
  ⟨rfl, rfl, rfl⟩

/-- The retry loop makes at most as many ping attempts as its initial
retries value. -/
theorem pingLoop_attempts_le (p : Nat → Bool) : ∀ r i, (pingLoop p r i).2 ≤ r := by
  intro r
  induction r with
  | zero => intro i; simp [pingLoop]
  | succ m ih =>
    intro i
    by_cases hp : p i
    · simp [pingLoop, hp]
    · by_cases hm : m = 0
      · simp [pingLoop, hp, hm]
      · simp [pingLoop, hp, hm]
        exact ih (i + 1)

/-- The retry loop reports exhaustion exactly when every ping in its attempt
budget fails. -/
theorem pingLoop_fst_eq_all (p : Nat → Bool) : ∀ r i,
    (pingLoop p r i).1 = (List.range r).all (fun j => !(p (i + j))) := by
  intro r
  induction r with
  | zero => intro i; simp [pingLoop]
  | succ m ih =>
    intro i
    rw [List.range_succ_eq_map]
    by_cases hp : p i
    · simp [pingLoop, hp]
    · by_cases hm : m = 0
      · subst hm; simp [pingLoop, hp]
      · simp [pingLoop, hp, hm, ih (i + 1), List.all_map, Function.comp]
        refine congrArg (List.range m).all (funext fun j => ?_)
        simp only [Function.comp_apply]
        refine congrArg (fun t => !p t) ?_
        omega

/-- C4: during startup the registry is pinged at most 5 times (at 1 s
spacing) and exhaustion of that budget makes edgex_device_service_start
return REMOTE_SERVER_DOWN; core-data and core-metadata are each pinged at
most connectretries times (at timeout-millisecond spacing), each loop is
exhausted exactly when all its allotted pings fail, and exhaustion of either
makes startConfigured return REMOTE_SERVER_DOWN. -/
theorem c4_ping_retry_loops (wenv : WrapEnv) (cfg : StartCfg) (u : String)
    (profile : Option String) (hreg : wenv.getRegistryOk = true)
    (hcr : 1 ≤ cfg.connectretries) (hval : wenv.start.validateOk = true) :
    (pingLoop wenv.regPing 5 0).2 ≤ 5
  ∧ (pingLoop wenv.regPing 5 0).1 = (List.range 5).all (fun j => !(wenv.regPing j))
  ∧ ((pingLoop wenv.regPing 5 0).1 = true →
      (edgex_device_service_start wenv cfg (some u) profile).2 = Err.REMOTE_SERVER_DOWN)
  ∧ (pingLoop wenv.start.dataPing cfg.connectretries 0).2 ≤ cfg.connectretries
  ∧ (pingLoop wenv.start.dataPing cfg.connectretries 0).1 =
      (List.range cfg.connectretries).all (fun j => !(wenv.start.dataPing j))
  ∧ ((pingLoop wenv.start.dataPing cfg.connectretries 0).1 = true →
      (startConfigured wenv.start cfg none).2 = Err.REMOTE_SERVER_DOWN)
  ∧ (pingLoop wenv.start.metaPing cfg.connectretries 0).2 ≤ cfg.connectretries
  ∧ (pingLoop wenv.start.metaPing cfg.connectretries 0).1 =
      (List.range cfg.connectretries).all (fun j => !(wenv.start.metaPing j))
  ∧ ((pingLoop wenv.start.dataPing cfg.connectretries 0).1 = false →
      (pingLoop wenv.start.metaPing cfg.connectretries 0).1 = true →
      (startConfigured wenv.start cfg none).2 = Err.REMOTE_SERVER_DOWN)
  ∧ coreDelayNanos cfg.timeout = cfg.timeout * 1000000
  ∧ registryDelayNanos = 1000000000 := by
  refine ⟨pingLoop_attempts_le _ 5 0, ?_, ?_, pingLoop_attempts_le _ _ 0, ?_, ?_,
          pingLoop_attempts_le _ _ 0, ?_, ?_, ?_, rfl⟩
  · simpa using pingLoop_fst_eq_all wenv.regPing 5 0
  · intro h
    simp [edgex_device_service_start, hreg, h]
  · simpa using pingLoop_fst_eq_all wenv.start.dataPing cfg.connectretries 0
  · intro h
    simp [startConfigured, stagePings, hval, h]
  · simpa using pingLoop_fst_eq_all wenv.start.metaPing cfg.connectretries 0
  · intro h1 h2
    simp [startConfigured, stagePings, hval, h1, h2]
  · unfold coreDelayNanos
    omega

/-- Witness for C4 at a concrete environment. -/
theorem c4_ping_retry_loops_witness :
    (pingLoop wrapFallback.regPing 5 0).2 ≤ 5
  ∧ (pingLoop wrapFallback.regPing 5 0).1 =
      (List.range 5).all (fun j => !(wrapFallback.regPing j))
  ∧ ((pingLoop wrapFallback.regPing 5 0).1 = true →
      (edgex_device_service_start wrapFallback cfg0 (some "consul://c") none).2 =
        Err.REMOTE_SERVER_DOWN)
  ∧ (pingLoop wrapFallback.start.dataPing cfg0.connectretries 0).2 ≤ cfg0.connectretries
  ∧ (pingLoop wrapFallback.start.dataPing cfg0.connectretries 0).1 =
      (List.range cfg0.connectretries).all (fun j => !(wrapFallback.start.dataPing j))
  ∧ ((pingLoop wrapFallback.start.dataPing cfg0.connectretries 0).1 = true →
      (startConfigured wrapFallback.start cfg0 none).2 = Err.REMOTE_SERVER_DOWN)
  ∧ (pingLoop wrapFallback.start.metaPing cfg0.connectretries 0).2 ≤ cfg0.connectretries
  ∧ (pingLoop wrapFallback.start.metaPing cfg0.connectretries 0).1 =
      (List.range cfg0.connectretries).all (fun j => !(wrapFallback.start.metaPing j))
  ∧ ((pingLoop wrapFallback.start.dataPing cfg0.connectretries 0).1 = false →
      (pingLoop wrapFallback.start.metaPing cfg0.connectretries 0).1 = true →
      (startConfigured wrapFallback.start cfg0 none).2 = Err.REMOTE_SERVER_DOWN)
  ∧ coreDelayNanos cfg0.timeout = cfg0.timeout * 1000000
  ∧ registryDelayNanos = 1000000000 :=
  c4_ping_retry_loops wrapFallback cfg0 "consul://c" none rfl (by decide) rfl

/-- On a fully successful startConfigured run the trace is the fixed prefix
up to the discovery handler registration, then the two upload loops, the
schedule-event fetch, and the auxiliary registrations. -/
theorem startConfigured_trace_fullSuccess (env : StartEnv) (cfg : StartCfg)
    (h : fullSuccess env cfg) :
    (startConfigured env cfg none).1 =
      [Action.validateConfig, Action.pingData, Action.pingMeta, Action.getDeviceService,
       Action.profilesUpload, Action.loadDevices, Action.createRestServer,
       Action.registerHandler Endpoint.callback, Action.processConfiguredDevices,
       Action.driverInit, Action.registerHandler Endpoint.device,
       Action.registerHandler Endpoint.discovery]
      ++ (schedulesLoop env.createSchedule cfg.schedules).1
      ++ (eventsLoop env.createAddressable env.createScheduleEvent cfg.scheduleevents).1
      ++ Action.getScheduleEvents ::
          (fetchLoop env.getSchedule env.scheduleFrequency env.parse8601
            (env.getScheduleEvents.getD []) []).1
      ++ Action.schedulerStart :: Action.registerHandler Endpoint.metrics ::
          Action.registerHandler Endpoint.config :: Action.registerHandler Endpoint.ping ::
          (stageFinal env cfg).1 := by
  obtain ⟨⟨⟨h1, h2, h3, h4, h5, h6, h7, h8, h9, h10⟩, h11⟩, h12, h13, h14⟩ := h
  obtain ⟨evs, hevs⟩ : ∃ evs, env.getScheduleEvents = some evs := by
    cases henv : env.getScheduleEvents
    · exact absurd henv h13
    · exact ⟨_, rfl⟩
  rw [hevs] at h14
  simp only [Option.getD_some] at h14
  simp [startConfigured, stagePings, stageMeta, stageProfiles, stageServer, stageDriver,
        stageInit, stageScheds, stageFetch, stageAux, h1, h2, h3, h4, h5, h6, h7, h8,
        h9, h10, h11, h12, hevs, h14]

/-- C1 counterexample: on a concrete fully successful run the callback
handler registration does not precede the device-service lookup (it follows
the whole metadata reconciliation), so the claim as stated fails. -/
theorem c1_callback_ordering_counterexample :
    (startConfigured allOkStart cfg0 none).2 = Err.OK
  ∧ Action.getDeviceService ∈ (startConfigured allOkStart cfg0 none).1
  ∧ Action.registerHandler Endpoint.callback ∈ (startConfigured allOkStart cfg0 none).1
  ∧ beforeB (startConfigured allOkStart cfg0 none).1
      (Action.registerHandler Endpoint.callback) Action.getDeviceService = false := by
  decide

/-- C1 (amended): the callback handler is registered only after the
metadata reconciliation steps — device-service lookup (and creation path),
profile upload and device load — and before configured-device processing
and driver initialisation; it is not active during those earlier steps. -/
theorem c1_callback_after_metadata (env : StartEnv) (cfg : StartCfg)
    (h : fullSuccess env cfg) :
    [Action.getDeviceService, Action.profilesUpload, Action.loadDevices,
     Action.registerHandler Endpoint.callback, Action.processConfiguredDevices,
     Action.driverInit].Sublist (startConfigured env cfg none).1 := by
  rw [startConfigured_trace_fullSuccess env cfg h]
  simp only [List.append_assoc]
  exact List.Sublist.trans (by decide) (List.sublist_append_left _ _)

/-- Witness for C1 (amended) at a concrete environment. -/
theorem c1_callback_after_metadata_witness :
    [Action.getDeviceService, Action.profilesUpload, Action.loadDevices,
     Action.registerHandler Endpoint.callback, Action.processConfiguredDevices,
     Action.driverInit].Sublist
      (startConfigured allOkStart { cfg0 with hasConfigToml := true } none).1 :=
  c1_callback_after_metadata allOkStart { cfg0 with hasConfigToml := true }
    ⟨⟨⟨rfl, rfl, rfl, rfl, rfl, rfl, rfl, rfl, rfl, rfl⟩, rfl⟩, rfl, by decide, rfl⟩

/-- C2 counterexample: on a concrete fully successful run the device handler
is registered after driver init, not before, so the claim as stated fails. -/
theorem c2_handler_ordering_counterexample :
    (startConfigured allOkStart cfg0 none).2 = Err.OK
  ∧ Action.driverInit ∈ (startConfigured allOkStart cfg0 none).1
  ∧ Action.registerHandler Endpoint.device ∈ (startConfigured allOkStart cfg0 none).1
  ∧ beforeB (startConfigured allOkStart cfg0 none).1
      (Action.registerHandler Endpoint.device) Action.driverInit = false
  ∧ beforeB (startConfigured allOkStart cfg0 none).1
      (Action.registerHandler Endpoint.discovery) Action.driverInit = false := by
  decide

/-- C2 (amended): the handlers are wired in the order callback, device,
discovery, metrics, config, ping — the device and discovery handlers being
registered just after the driver's init() has succeeded (not before), and
the auxiliary metrics/config/ping endpoints only after the whole
schedule-event reconciliation. -/
theorem c2_handler_wiring_order (env : StartEnv) (cfg : StartCfg)
    (h : fullSuccess env cfg) :
    [Action.registerHandler Endpoint.callback, Action.driverInit,
     Action.registerHandler Endpoint.device, Action.registerHandler Endpoint.discovery,
     Action.registerHandler Endpoint.metrics, Action.registerHandler Endpoint.config,
     Action.registerHandler Endpoint.ping].Sublist (startConfigured env cfg none).1 := by
  rw [startConfigured_trace_fullSuccess env cfg h]
  simp only [List.append_assoc]
  show ([Action.registerHandler Endpoint.callback, Action.driverInit,
     Action.registerHandler Endpoint.device, Action.registerHandler Endpoint.discovery]
     ++ [Action.registerHandler Endpoint.metrics, Action.registerHandler Endpoint.config,
         Action.registerHandler Endpoint.ping]).Sublist _
  refine List.Sublist.append (by decide) ?_
  refine List.Sublist.trans ?_ (List.sublist_append_right _ _)
  refine List.Sublist.trans ?_ (List.sublist_append_right _ _)
  refine List.Sublist.cons _ ?_
  refine List.Sublist.trans ?_ (List.sublist_append_right _ _)
  exact List.Sublist.cons _ (List.Sublist.cons₂ _ (List.Sublist.cons₂ _
    (List.Sublist.cons₂ _ (List.nil_sublist _))))

/-- Witness for C2 (amended) at a concrete environment. -/
theorem c2_handler_wiring_order_witness :
    [Action.registerHandler Endpoint.callback, Action.driverInit,
     Action.registerHandler Endpoint.device, Action.registerHandler Endpoint.discovery,
     Action.registerHandler Endpoint.metrics, Action.registerHandler Endpoint.config,
     Action.registerHandler Endpoint.ping].Sublist
      (startConfigured allOkStart { cfg0 with hasConfigToml := true } none).1 :=
  c2_handler_wiring_order allOkStart { cfg0 with hasConfigToml := true }
    ⟨⟨⟨rfl, rfl, rfl, rfl, rfl, rfl, rfl, rfl, rfl, rfl⟩, rfl⟩, rfl, by decide, rfl⟩

/-- The Schedules upload loop never logs a configuration upload. -/
theorem uploadConfig_notin_schedulesLoop (c : String → COutcome) (ns : List String) :
    Action.uploadConfig ∉ (schedulesLoop c ns).1 := by
  induction ns with
  | nil => simp [schedulesLoop]
  | cons n rest ih =>
    cases hcn : c n <;> simp [schedulesLoop, createLog, hcn, ih]

/-- The ScheduleEvents upload loop never logs a configuration upload. -/
theorem uploadConfig_notin_eventsLoop (ca ce : String → COutcome)
    (evts : List (String × SchedEventInfo)) :
    Action.uploadConfig ∉ (eventsLoop ca ce evts).1 := by
  induction evts with
  | nil => simp [eventsLoop]
  | cons e rest ih =>
    obtain ⟨n, info⟩ := e
    by_cases hp : schedEventPathOk info.path = true
    · cases h1 : ca (n ++ "_addr") <;> cases h2 : ce n <;>
        simp [eventsLoop, createLog, hp, h1, h2, ih]
    · simp [eventsLoop, hp]

/-- The fetched-events loop never logs a configuration upload. -/
theorem uploadConfig_notin_fetchLoop (gs : String → Bool) (freq : String → String)
    (parse : String → Except String Nat) (evs : List FetchedEvent) :
    ∀ sjobs, Action.uploadConfig ∉ (fetchLoop gs freq parse evs sjobs).1 := by
  induction evs with
  | nil => intro sjobs; simp [fetchLoop]
  | cons e rest ih =>
    intro sjobs
    by_cases hgs : gs e.schedule = false
    · simp [fetchLoop, hgs]
    · cases hp : parse (freq e.schedule) with
      | error s => simp [fetchLoop, hgs, hp]
      | ok k =>
        by_cases hd : e.path = discoveryPath
        · simp [fetchLoop, hgs, hp, hd, ih]
        · by_cases hpre : devPathPre e.path = true
          · simp [fetchLoop, hgs, hp, hd, hpre, ih]
          · simp [fetchLoop, hgs, hp, hd, hpre]

/-- The final registration stage never logs a configuration upload. -/
theorem uploadConfig_notin_stageFinal (env : StartEnv) (cfg : StartCfg) :
    Action.uploadConfig ∉ (stageFinal env cfg).1 := by
  by_cases h : (cfg.registryPresent && cfg.checkinterval) = true
  · by_cases h2 : env.registerServiceOk = true <;> simp [stageFinal, h, h2]
  · simp [stageFinal, h]

/-- The auxiliary-endpoint stage never logs a configuration upload. -/
theorem uploadConfig_notin_stageAux (env : StartEnv) (cfg : StartCfg) :
    Action.uploadConfig ∉ (stageAux env cfg).1 := by
  simp [stageAux, uploadConfig_notin_stageFinal]

/-- The schedule-event fetch stage never logs a configuration upload. -/
theorem uploadConfig_notin_stageFetch (env : StartEnv) (cfg : StartCfg) :
    Action.uploadConfig ∉ (stageFetch env cfg).1 := by
  cases hse : env.getScheduleEvents with
  | none => simp [stageFetch, hse]
  | some evs =>
    by_cases he : (fetchLoop env.getSchedule env.scheduleFrequency env.parse8601 evs []).2.1
        = Err.OK
    · simp [stageFetch, hse, he, uploadConfig_notin_fetchLoop,
            uploadConfig_notin_stageAux]
    · simp [stageFetch, hse, he, uploadConfig_notin_fetchLoop]

/-- The schedule-upload stage never logs a configuration upload. -/
theorem uploadConfig_notin_stageScheds (env : StartEnv) (cfg : StartCfg) :
    Action.uploadConfig ∉ (stageScheds env cfg).1 := by
  by_cases h1 : (schedulesLoop env.createSchedule cfg.schedules).2 = Err.OK
  · by_cases h2 : (eventsLoop env.createAddressable env.createScheduleEvent
        cfg.scheduleevents).2 = Err.OK
    · simp [stageScheds, h1, h2, uploadConfig_notin_schedulesLoop,
            uploadConfig_notin_eventsLoop, uploadConfig_notin_stageFetch]
    · simp [stageScheds, h1, h2, uploadConfig_notin_schedulesLoop,
            uploadConfig_notin_eventsLoop]
  · simp [stageScheds, h1, uploadConfig_notin_schedulesLoop]

/-- The driver-init stage never logs a configuration upload. -/
theorem uploadConfig_notin_stageInit (env : StartEnv) (cfg : StartCfg) :
    Action.uploadConfig ∉ (stageInit env cfg).1 := by
  by_cases h : env.driverInitOk = true <;>
    simp [stageInit, h, uploadConfig_notin_stageScheds]

/-- The configured-device stage never logs a configuration upload. -/
theorem uploadConfig_notin_stageDriver (env : StartEnv) (cfg : StartCfg) :
    Action.uploadConfig ∉ (stageDriver env cfg).1 := by
  by_cases h1 : cfg.hasConfigToml = true
  · by_cases h2 : env.processConfiguredOk = true <;>
      simp [stageDriver, h1, h2, uploadConfig_notin_stageInit]
  · simp [stageDriver, h1, uploadConfig_notin_stageInit]

/-- The REST-server stage never logs a configuration upload. -/
theorem uploadConfig_notin_stageServer (env : StartEnv) (cfg : StartCfg) :
    Action.uploadConfig ∉ (stageServer env cfg).1 := by
  by_cases h : env.serverCreateOk = true <;>
    simp [stageServer, h, uploadConfig_notin_stageDriver]

/-- The profile/device loading stage never logs a configuration upload. -/
theorem uploadConfig_notin_stageProfiles (env : StartEnv) (cfg : StartCfg) :
    Action.uploadConfig ∉ (stageProfiles env cfg).1 := by
  by_cases h1 : env.profilesUploadOk = true
  · by_cases h2 : env.loadDevicesOk = true <;>
      simp [stageProfiles, h1, h2, uploadConfig_notin_stageServer]
  · simp [stageProfiles, h1]

/-- The metadata-registration stage never logs a configuration upload. -/
theorem uploadConfig_notin_stageMeta (env : StartEnv) (cfg : StartCfg) :
    Action.uploadConfig ∉ (stageMeta env cfg).1 := by
  cases hds : env.getDeviceService with
  | none => simp [stageMeta, hds]
  | some found =>
    cases found with
    | some u => simp [stageMeta, hds, uploadConfig_notin_stageProfiles]
    | none =>
      cases had : env.getAddressable with
      | none => simp [stageMeta, hds, had]
      | some af =>
        cases af with
        | some u =>
          by_cases h2 : env.createDeviceServiceOk = true <;>
            simp [stageMeta, hds, had, h2, uploadConfig_notin_stageProfiles]
        | none =>
          by_cases h1 : env.createSvcAddressableOk = true
          · by_cases h2 : env.createDeviceServiceOk = true <;>
              simp [stageMeta, hds, had, h1, h2, uploadConfig_notin_stageProfiles]
          · simp [stageMeta, hds, had, h1]

/-- The core-service ping stage never logs a configuration upload. -/
theorem uploadConfig_notin_stagePings (env : StartEnv) (cfg : StartCfg) :
    Action.uploadConfig ∉ (stagePings env cfg).1 := by
  by_cases h1 : (pingLoop env.dataPing cfg.connectretries 0).1 = true
  · simp [stagePings, h1]
  · by_cases h2 : (pingLoop env.metaPing cfg.connectretries 0).1 = true <;>
      simp [stagePings, h1, h2, uploadConfig_notin_stageMeta]

/-- Without a profile name, startConfigured never uploads the configuration
to the registry. -/
theorem uploadConfig_notin_startConfigured_none (env : StartEnv) (cfg : StartCfg) :
    Action.uploadConfig ∉ (startConfigured env cfg none).1 := by
  by_cases hv : env.validateOk = true <;>
    simp [startConfigured, hv, uploadConfig_notin_stagePings]

/-- C5 counterexample: a concrete service_start run with a registry in use
that returns no configuration (so the file fallback is taken) but with no
profile name supplied completes successfully without ever pushing the
configuration back to the registry. -/
theorem c5_upload_counterexample :
    (edgex_device_service_start wrapFallback cfg0 (some "consul://localhost:8500") none).2
      = Err.OK
  ∧ Action.getRegistryConfig ∈
      (edgex_device_service_start wrapFallback cfg0 (some "consul://localhost:8500") none).1
  ∧ Action.loadConfigFile ∈
      (edgex_device_service_start wrapFallback cfg0 (some "consul://localhost:8500") none).1
  ∧ Action.uploadConfig ∉
      (edgex_device_service_start wrapFallback cfg0 (some "consul://localhost:8500") none).1 := by
  decide

/-- C5 (amended): in a file-fallback run with a registry in use, the flat
configuration is pushed back to the registry (immediately after config
validation, before the core-service pings and all metadata interaction)
exactly when a profile name was supplied; with no profile name no push-back
happens anywhere in the run. -/
theorem c5_upload_iff_profile (wenv : WrapEnv) (cfg : StartCfg) (u p : String)
    (hreg : wenv.getRegistryOk = true)
    (hping : (pingLoop wenv.regPing 5 0).1 = false)
    (hnocfg : wenv.getConfigFromRegistry = false)
    (hload : wenv.loadConfigOk = true)
    (hval : wenv.start.validateOk = true)
    (hput : wenv.start.putConfigOk = true) :
    (edgex_device_service_start wenv cfg (some u) (some p)).1 =
      [Action.getRegistryClient, Action.pingRegistry, Action.getRegistryConfig,
       Action.loadConfigFile, Action.populateConfig, Action.validateConfig,
       Action.uploadConfig]
      ++ (stagePings wenv.start
            { cfg with hasConfigToml := true, registryPresent := true }).1
  ∧ Action.uploadConfig ∉ (edgex_device_service_start wenv cfg (some u) none).1 := by
  constructor
  · simp [edgex_device_service_start, startConfigured, hreg, hping, hnocfg, hload,
          hval, hput]
  · simp [edgex_device_service_start, hreg, hping, hnocfg, hload,
          uploadConfig_notin_startConfigured_none]

/-- Witness for C5 (amended) at a concrete environment. -/
theorem c5_upload_iff_profile_witness :
    (edgex_device_service_start wrapFallback cfg0 (some "consul://h") (some "docker")).1 =
      [Action.getRegistryClient, Action.pingRegistry, Action.getRegistryConfig,
       Action.loadConfigFile, Action.populateConfig, Action.validateConfig,
       Action.uploadConfig]
      ++ (stagePings wrapFallback.start
            { cfg0 with hasConfigToml := true, registryPresent := true }).1
  ∧ Action.uploadConfig ∉ (edgex_device_service_start wrapFallback cfg0 (some "consul://h") none).1 :=
  c5_upload_iff_profile wrapFallback cfg0 "consul://h" "docker" rfl (by decide)
    rfl rfl rfl rfl

/-- If every prior step succeeds, a failing Schedules upload loop decides the
result of startConfigured. -/
theorem startConfigured_err_of_schedulesLoop (env : StartEnv) (cfg : StartCfg)
    (h : reachScheds env cfg)
    (hne : (schedulesLoop env.createSchedule cfg.schedules).2 ≠ Err.OK) :
    (startConfigured env cfg none).2 =
      (schedulesLoop env.createSchedule cfg.schedules).2 := by
  obtain ⟨h1, h2, h3, h4, h5, h6, h7, h8, h9, h10⟩ := h
  simp [startConfigured, stagePings, stageMeta, stageProfiles, stageServer, stageDriver,
        stageInit, stageScheds, h1, h2, h3, h4, h5, h6, h7, h8, h9, h10, hne]

/-- If every prior step succeeds, a failing ScheduleEvents upload loop
decides the result of startConfigured. -/
theorem startConfigured_err_of_eventsLoop (env : StartEnv) (cfg : StartCfg)
    (h : reachEvents env cfg)
    (hne : (eventsLoop env.createAddressable env.createScheduleEvent
        cfg.scheduleevents).2 ≠ Err.OK) :
    (startConfigured env cfg none).2 =
      (eventsLoop env.createAddressable env.createScheduleEvent cfg.scheduleevents).2 := by
  obtain ⟨⟨h1, h2, h3, h4, h5, h6, h7, h8, h9, h10⟩, h11⟩ := h
  simp [startConfigured, stagePings, stageMeta, stageProfiles, stageServer, stageDriver,
        stageInit, stageScheds, h1, h2, h3, h4, h5, h6, h7, h8, h9, h10, h11, hne]

/-- If every prior step succeeds, a failing fetched-events loop decides the
result of startConfigured. -/
theorem startConfigured_err_of_fetchLoop (env : StartEnv) (cfg : StartCfg)
    (evs : List FetchedEvent) (h : reachEvents env cfg)
    (hev : (eventsLoop env.createAddressable env.createScheduleEvent
        cfg.scheduleevents).2 = Err.OK)
    (hse : env.getScheduleEvents = some evs)
    (hne : (fetchLoop env.getSchedule env.scheduleFrequency env.parse8601 evs []).2.1
        ≠ Err.OK) :
    (startConfigured env cfg none).2 =
      (fetchLoop env.getSchedule env.scheduleFrequency env.parse8601 evs []).2.1 := by
  obtain ⟨⟨h1, h2, h3, h4, h5, h6, h7, h8, h9, h10⟩, h11⟩ := h
  simp [startConfigured, stagePings, stageMeta, stageProfiles, stageServer, stageDriver,
        stageInit, stageScheds, stageFetch, h1, h2, h3, h4, h5, h6, h7, h8, h9, h10,
        h11, hev, hse, hne]

/-- When no create call fails outright, the ScheduleEvents upload loop
returns BAD_CONFIG exactly when some configured event has an invalid path. -/
theorem eventsLoop_badconfig_iff (ca ce : String → COutcome)
    (hca : ∀ n, ca n ≠ COutcome.fail) (hce : ∀ n, ce n ≠ COutcome.fail) :
    ∀ evts : List (String × SchedEventInfo),
    ((eventsLoop ca ce evts).2 = Err.BAD_CONFIG ↔
      evts.any (fun q => !(schedEventPathOk q.2.path)) = true) := by
  intro evts
  induction evts with
  | nil => simp [eventsLoop]
  | cons e rest ih =>
    obtain ⟨n, info⟩ := e
    by_cases hp : schedEventPathOk info.path = true
    · have hca1 := hca (n ++ "_addr")
      have hce1 := hce n
      cases h1 : ca (n ++ "_addr") <;> cases h2 : ce n <;>
        simp_all [eventsLoop, ih]
    · simp only [Bool.not_eq_true] at hp
      simp [eventsLoop, hp]

/-- When no create call fails outright and every path is valid, the
ScheduleEvents upload loop completes with OK. -/
theorem eventsLoop_ok_of_valid (ca ce : String → COutcome)
    (hca : ∀ n, ca n ≠ COutcome.fail) (hce : ∀ n, ce n ≠ COutcome.fail) :
    ∀ evts : List (String × SchedEventInfo),
    evts.all (fun q => schedEventPathOk q.2.path) = true →
    (eventsLoop ca ce evts).2 = Err.OK := by
  intro evts
  induction evts with
  | nil => intro hv; simp [eventsLoop]
  | cons e rest ih =>
    intro hv
    obtain ⟨n, info⟩ := e
    simp only [List.all_cons, Bool.and_eq_true] at hv
    obtain ⟨hv1, hv2⟩ := hv
    have hca1 := hca (n ++ "_addr")
    have hce1 := hce n
    cases h1 : ca (n ++ "_addr") <;> cases h2 : ce n <;>
      simp_all [eventsLoop, ih hv2]

/-- When every schedule fetch and frequency parse succeeds, the loop over
fetched schedule-events returns BAD_CONFIG exactly when some fetched event
has an addressable path of neither allowed shape. -/
theorem fetchLoop_badconfig_iff (gs : String → Bool) (freq : String → String)
    (parse : String → Except String Nat) :
    ∀ evs : List FetchedEvent,
    (∀ e ∈ evs, gs e.schedule = true) →
    (∀ e ∈ evs, (parse (freq e.schedule)).isOk = true) →
    ∀ sjobs,
    ((fetchLoop gs freq parse evs sjobs).2.1 = Err.BAD_CONFIG ↔
      evs.any (fun e => !(schedEventPathOk e.path)) = true) := by
  intro evs
  induction evs with
  | nil => intro _ _ sjobs; simp [fetchLoop]
  | cons e rest ih =>
    intro hgs hparse sjobs
    have hg1 : gs e.schedule = true := hgs e (List.mem_cons_self e rest)
    have hp1 := hparse e (List.mem_cons_self e rest)
    obtain ⟨k, hk⟩ : ∃ k, parse (freq e.schedule) = Except.ok k := by
      cases hpp : parse (freq e.schedule)
      · rw [hpp] at hp1; simp [Except.isOk, Except.toBool] at hp1
      · exact ⟨_, rfl⟩
    have ihr := ih (fun x hx => hgs x (List.mem_cons_of_mem e hx))
      (fun x hx => hparse x (List.mem_cons_of_mem e hx))
    by_cases hd : e.path = discoveryPath
    · have hdov : schedEventPathOk discoveryPath = true := by decide
      simp [fetchLoop, hg1, hk, hd, hdov, ihr]
    · by_cases hpre : devPathPre e.path = true
      · have hok : schedEventPathOk e.path = true := by simp [schedEventPathOk, hpre]
        simp [fetchLoop, hg1, hk, hd, hpre, hok, ihr]
      · have hbad : schedEventPathOk e.path = false := by
          simp [schedEventPathOk, hd, hpre]
        simp [fetchLoop, hg1, hk, hd, hpre, hbad]

/-- C6: with the metadata create calls not failing outright (and, for the
fetched part, with schedule fetches and frequency parses succeeding), a
configured schedule-event whose path is neither exactly the discovery path
nor an extension of the device command path makes startup abort with
BAD_CONFIG — the upload loop returns BAD_CONFIG exactly when such an event
exists, and startConfigured then results in BAD_CONFIG; the same holds at
the later step for schedule-events fetched back from metadata. -/
theorem c6_scheduleevent_path_validation (env : StartEnv) (cfg : StartCfg)
    (evs : List FetchedEvent)
    (h : reachEvents env cfg)
    (hca : ∀ n, env.createAddressable n ≠ COutcome.fail)
    (hce : ∀ n, env.createScheduleEvent n ≠ COutcome.fail)
    (hse : env.getScheduleEvents = some evs)
    (hgs : ∀ e ∈ evs, env.getSchedule e.schedule = true)
    (hparse : ∀ e ∈ evs, (env.parse8601 (env.scheduleFrequency e.schedule)).isOk = true) :
    ((eventsLoop env.createAddressable env.createScheduleEvent cfg.scheduleevents).2
        = Err.BAD_CONFIG ↔
      cfg.scheduleevents.any (fun q => !(schedEventPathOk q.2.path)) = true)
  ∧ (cfg.scheduleevents.any (fun q => !(schedEventPathOk q.2.path)) = true →
      (startConfigured env cfg none).2 = Err.BAD_CONFIG)
  ∧ ((fetchLoop env.getSchedule env.scheduleFrequency env.parse8601 evs []).2.1
        = Err.BAD_CONFIG ↔
      evs.any (fun e => !(schedEventPathOk e.path)) = true)
  ∧ (cfg.scheduleevents.all (fun q => schedEventPathOk q.2.path) = true →
      evs.any (fun e => !(schedEventPathOk e.path)) = true →
      (startConfigured env cfg none).2 = Err.BAD_CONFIG) := by
  refine ⟨eventsLoop_badconfig_iff _ _ hca hce _, ?_,
          fetchLoop_badconfig_iff _ _ _ evs hgs hparse [], ?_⟩
  · intro ha
    have hbc := (eventsLoop_badconfig_iff _ _ hca hce cfg.scheduleevents).mpr ha
    rw [startConfigured_err_of_eventsLoop env cfg h (by simp [hbc]), hbc]
  · intro hall hany
    have hev := eventsLoop_ok_of_valid _ _ hca hce cfg.scheduleevents hall
    have hf := (fetchLoop_badconfig_iff _ _ _ evs hgs hparse []).mpr hany
    rw [startConfigured_err_of_fetchLoop env cfg evs h hev hse (by simp [hf]), hf]

/-- An environment whose metadata holds one schedule-event with an invalid
addressable path. -/
def badFetchedEvent : FetchedEvent :=
  { name := "e1", schedule := "s1", path := "/bad" }

def envBadFetched : StartEnv :=
  { allOkStart with getScheduleEvents := some [badFetchedEvent] }

/-- A configuration with one valid configured schedule-event. -/
def cfgOneEvent : StartCfg :=
  { cfg0 with hasConfigToml := true, scheduleevents := [("ev1", ⟨"s1", "/api/v1/discovery"⟩)] }

/-- Witness for C6 at a concrete environment. -/
theorem c6_scheduleevent_path_validation_witness :
    ((eventsLoop envBadFetched.createAddressable envBadFetched.createScheduleEvent
        cfgOneEvent.scheduleevents).2 = Err.BAD_CONFIG ↔
      cfgOneEvent.scheduleevents.any (fun q => !(schedEventPathOk q.2.path)) = true)
  ∧ (cfgOneEvent.scheduleevents.any (fun q => !(schedEventPathOk q.2.path)) = true →
      (startConfigured envBadFetched cfgOneEvent none).2 = Err.BAD_CONFIG)
  ∧ ((fetchLoop envBadFetched.getSchedule envBadFetched.scheduleFrequency
        envBadFetched.parse8601
        [badFetchedEvent] []).2.1 = Err.BAD_CONFIG ↔
      [badFetchedEvent].any (fun e => !(schedEventPathOk e.path)) = true)
  ∧ (cfgOneEvent.scheduleevents.all (fun q => schedEventPathOk q.2.path) = true →
      [badFetchedEvent].any (fun e => !(schedEventPathOk e.path)) = true →
      (startConfigured envBadFetched cfgOneEvent none).2 = Err.BAD_CONFIG) :=
  c6_scheduleevent_path_validation envBadFetched cfgOneEvent [badFetchedEvent]
    ⟨⟨rfl, rfl, rfl, rfl, rfl, rfl, rfl, rfl, rfl, rfl⟩, rfl⟩
    (by intro n; simp [envBadFetched, allOkStart])
    (by intro n; simp [envBadFetched, allOkStart]) rfl
    (by decide) (by decide)

/-- The Schedules upload loop fails exactly when some create_schedule call
fails outright, and completes exactly when none does (a CONFLICT never
escapes the loop). -/
theorem schedulesLoop_err (c : String → COutcome) : ∀ ns : List String,
    ((schedulesLoop c ns).2 = Err.FAIL ↔
      ns.any (fun m => decide (c m = COutcome.fail)) = true)
  ∧ ((schedulesLoop c ns).2 = Err.OK ↔
      ns.all (fun m => !(decide (c m = COutcome.fail))) = true) := by
  intro ns
  induction ns with
  | nil => simp [schedulesLoop]
  | cons m rest ih =>
    cases hc : c m <;> simp [schedulesLoop, hc, ih.1, ih.2]

/-- Trace shape of one non-failing Schedules loop step. -/
theorem schedulesLoop_cons_trace (c : String → COutcome) (m : String)
    (rest : List String) (hm : c m ≠ COutcome.fail) :
    (schedulesLoop c (m :: rest)).1 =
      Action.createSchedule m :: createLog "schedule" m (c m) ::
        (schedulesLoop c rest).1 := by
  simp [schedulesLoop, hm]

/-- When no create_schedule call fails, each schedule that is created is
logged at info, and each CONFLICT is logged at info as already existing. -/
theorem schedulesLoop_logs (c : String → COutcome) : ∀ ns : List String,
    ns.all (fun m => !(decide (c m = COutcome.fail))) = true →
    ∀ n ∈ ns,
    (c n = COutcome.ok →
      Action.logInfo ("Created schedule " ++ n) ∈ (schedulesLoop c ns).1)
  ∧ (c n = COutcome.conflict →
      Action.logInfo ("Skipping already existing schedule " ++ n)
        ∈ (schedulesLoop c ns).1) := by
  intro ns
  induction ns with
  | nil => intro _ n hn; simp at hn
  | cons m rest ih =>
    intro hall n hn
    simp only [List.all_cons, Bool.and_eq_true, Bool.not_eq_true',
      decide_eq_false_iff_not] at hall
    obtain ⟨hm, hrest⟩ := hall
    rw [schedulesLoop_cons_trace c m rest hm]
    rcases List.mem_cons.mp hn with h | h
    · subst h
      refine ⟨fun hok => ?_, fun hconf => ?_⟩
      · rw [hok]; simp [createLog]
      · rw [hconf]; simp [createLog]
    · have ihn := ih hrest n h
      refine ⟨fun hok => ?_, fun hconf => ?_⟩
      · exact List.mem_cons_of_mem _ (List.mem_cons_of_mem _ (ihn.1 hok))
      · exact List.mem_cons_of_mem _ (List.mem_cons_of_mem _ (ihn.2 hconf))

/-- With every configured path valid, the ScheduleEvents loop fails exactly
when some create_addressable or create_scheduleevent call fails outright,
and completes exactly when none does (a CONFLICT never escapes). -/
theorem eventsLoop_err (ca ce : String → COutcome) :
    ∀ evts : List (String × SchedEventInfo),
    evts.all (fun q => schedEventPathOk q.2.path) = true →
    ((eventsLoop ca ce evts).2 = Err.FAIL ↔
      evts.any (fun q => decide (ca (q.1 ++ "_addr") = COutcome.fail) ||
                          decide (ce q.1 = COutcome.fail)) = true)
  ∧ ((eventsLoop ca ce evts).2 = Err.OK ↔
      evts.all (fun q => !(decide (ca (q.1 ++ "_addr") = COutcome.fail)) &&
                          !(decide (ce q.1 = COutcome.fail))) = true) := by
  intro evts
  induction evts with
  | nil => intro _; simp [eventsLoop]
  | cons q rest ih =>
    intro hv
    obtain ⟨n, info⟩ := q
    simp only [List.all_cons, Bool.and_eq_true] at hv
    obtain ⟨hv1, hv2⟩ := hv
    have ihr := ih hv2
    cases h1 : ca (n ++ "_addr") <;> cases h2 : ce n <;>
      simp_all [eventsLoop, ihr.1, ihr.2]

/-- Trace shape of one non-failing ScheduleEvents loop step. -/
theorem eventsLoop_cons_trace (ca ce : String → COutcome) (n : String)
    (info : SchedEventInfo) (rest : List (String × SchedEventInfo))
    (hp : schedEventPathOk info.path = true)
    (h1 : ca (n ++ "_addr") ≠ COutcome.fail) (h2 : ce n ≠ COutcome.fail) :
    (eventsLoop ca ce ((n, info) :: rest)).1 =
      Action.createAddressable (n ++ "_addr") ::
      createLog "addressable" (n ++ "_addr") (ca (n ++ "_addr")) ::
      Action.createScheduleEvent n :: createLog "ScheduleEvent" n (ce n) ::
        (eventsLoop ca ce rest).1 := by
  simp [eventsLoop, hp, h1, h2]

/-- When every path is valid and no create call fails, the ScheduleEvents
loop logs every creation at info and every CONFLICT at info as already
existing. -/
theorem eventsLoop_logs (ca ce : String → COutcome) :
    ∀ evts : List (String × SchedEventInfo),
    evts.all (fun q => schedEventPathOk q.2.path) = true →
    evts.all (fun q => !(decide (ca (q.1 ++ "_addr") = COutcome.fail)) &&
                        !(decide (ce q.1 = COutcome.fail))) = true →
    ∀ q ∈ evts,
    (ca (q.1 ++ "_addr") = COutcome.ok →
      Action.logInfo ("Created addressable " ++ (q.1 ++ "_addr"))
        ∈ (eventsLoop ca ce evts).1)
  ∧ (ca (q.1 ++ "_addr") = COutcome.conflict →
      Action.logInfo ("Skipping already existing addressable " ++ (q.1 ++ "_addr"))
        ∈ (eventsLoop ca ce evts).1)
  ∧ (ce q.1 = COutcome.ok →
      Action.logInfo ("Created ScheduleEvent " ++ q.1) ∈ (eventsLoop ca ce evts).1)
  ∧ (ce q.1 = COutcome.conflict →
      Action.logInfo ("Skipping already existing ScheduleEvent " ++ q.1)
        ∈ (eventsLoop ca ce evts).1) := by
  intro evts
  induction evts with
  | nil => intro _ _ q hq; simp at hq
  | cons e rest ih =>
    intro hv hnf q hq
    obtain ⟨m, info⟩ := e
    simp only [List.all_cons, Bool.and_eq_true, Bool.not_eq_true',
      decide_eq_false_iff_not] at hv hnf
    obtain ⟨hv1, hv2⟩ := hv
    obtain ⟨⟨hm1, hm2⟩, hnfr⟩ := hnf
    rw [eventsLoop_cons_trace ca ce m info rest hv1 hm1 hm2]
    rcases List.mem_cons.mp hq with h | h
    · subst h
      refine ⟨fun ho => ?_, fun ho => ?_, fun ho => ?_, fun ho => ?_⟩ <;>
        · rw [ho]; simp [createLog]
    · have ihn := ih hv2 hnfr q h
      refine ⟨fun ho => ?_, fun ho => ?_, fun ho => ?_, fun ho => ?_⟩
      · exact List.mem_cons_of_mem _ (List.mem_cons_of_mem _ (List.mem_cons_of_mem _
          (List.mem_cons_of_mem _ (ihn.1 ho))))
      · exact List.mem_cons_of_mem _ (List.mem_cons_of_mem _ (List.mem_cons_of_mem _
          (List.mem_cons_of_mem _ (ihn.2.1 ho))))
      · exact List.mem_cons_of_mem _ (List.mem_cons_of_mem _ (List.mem_cons_of_mem _
          (List.mem_cons_of_mem _ (ihn.2.2.1 ho))))
      · exact List.mem_cons_of_mem _ (List.mem_cons_of_mem _ (List.mem_cons_of_mem _
          (List.mem_cons_of_mem _ (ihn.2.2.2 ho))))

/-- C7: for the create-schedule, create-addressable and create-scheduleevent
calls of startup: the loop fails exactly when some call returns an error
other than CONFLICT (and that error then decides service_start's result),
it completes exactly when no call does — CONFLICT is never propagated — and
when no call fails, every successful creation and every CONFLICT is logged
at info (the latter as already existing). -/
theorem c7_create_conflict_handling (env : StartEnv) (cfg : StartCfg)
    (h : reachScheds env cfg)
    (hv : cfg.scheduleevents.all (fun q => schedEventPathOk q.2.path) = true)
    (n : String) (hn : n ∈ cfg.schedules)
    (q : String × SchedEventInfo) (hq : q ∈ cfg.scheduleevents) :
    ((schedulesLoop env.createSchedule cfg.schedules).2 = Err.FAIL ↔
      cfg.schedules.any (fun m => decide (env.createSchedule m = COutcome.fail)) = true)
  ∧ ((schedulesLoop env.createSchedule cfg.schedules).2 = Err.OK ↔
      cfg.schedules.all (fun m => !(decide (env.createSchedule m = COutcome.fail))) = true)
  ∧ ((schedulesLoop env.createSchedule cfg.schedules).2 ≠ Err.OK →
      (startConfigured env cfg none).2 = (schedulesLoop env.createSchedule cfg.schedules).2)
  ∧ (cfg.schedules.all (fun m => !(decide (env.createSchedule m = COutcome.fail))) = true →
      (env.createSchedule n = COutcome.ok →
        Action.logInfo ("Created schedule " ++ n)
          ∈ (schedulesLoop env.createSchedule cfg.schedules).1)
      ∧ (env.createSchedule n = COutcome.conflict →
        Action.logInfo ("Skipping already existing schedule " ++ n)
          ∈ (schedulesLoop env.createSchedule cfg.schedules).1))
  ∧ ((eventsLoop env.createAddressable env.createScheduleEvent cfg.scheduleevents).2
        = Err.FAIL ↔
      cfg.scheduleevents.any (fun r =>
        decide (env.createAddressable (r.1 ++ "_addr") = COutcome.fail) ||
        decide (env.createScheduleEvent r.1 = COutcome.fail)) = true)
  ∧ ((eventsLoop env.createAddressable env.createScheduleEvent cfg.scheduleevents).2
        = Err.OK ↔
      cfg.scheduleevents.all (fun r =>
        !(decide (env.createAddressable (r.1 ++ "_addr") = COutcome.fail)) &&
        !(decide (env.createScheduleEvent r.1 = COutcome.fail))) = true)
  ∧ ((schedulesLoop env.createSchedule cfg.schedules).2 = Err.OK →
      (eventsLoop env.createAddressable env.createScheduleEvent cfg.scheduleevents).2
        ≠ Err.OK →
      (startConfigured env cfg none).2 =
        (eventsLoop env.createAddressable env.createScheduleEvent cfg.scheduleevents).2)
  ∧ (cfg.scheduleevents.all (fun r =>
        !(decide (env.createAddressable (r.1 ++ "_addr") = COutcome.fail)) &&
        !(decide (env.createScheduleEvent r.1 = COutcome.fail))) = true →
      (env.createAddressable (q.1 ++ "_addr") = COutcome.ok →
        Action.logInfo ("Created addressable " ++ (q.1 ++ "_addr"))
          ∈ (eventsLoop env.createAddressable env.createScheduleEvent cfg.scheduleevents).1)
      ∧ (env.createAddressable (q.1 ++ "_addr") = COutcome.conflict →
        Action.logInfo ("Skipping already existing addressable " ++ (q.1 ++ "_addr"))
          ∈ (eventsLoop env.createAddressable env.createScheduleEvent cfg.scheduleevents).1)
      ∧ (env.createScheduleEvent q.1 = COutcome.ok →
        Action.logInfo ("Created ScheduleEvent " ++ q.1)
          ∈ (eventsLoop env.createAddressable env.createScheduleEvent cfg.scheduleevents).1)
      ∧ (env.createScheduleEvent q.1 = COutcome.conflict →
        Action.logInfo ("Skipping already existing ScheduleEvent " ++ q.1)
          ∈ (eventsLoop env.createAddressable env.createScheduleEvent cfg.scheduleevents).1)) := by
  obtain ⟨hA, hB⟩ := schedulesLoop_err env.createSchedule cfg.schedules
  obtain ⟨hC, hD⟩ :=
    eventsLoop_err env.createAddressable env.createScheduleEvent cfg.scheduleevents hv
  refine ⟨hA, hB, ?_, ?_, hC, hD, ?_, ?_⟩
  · exact fun hne => startConfigured_err_of_schedulesLoop env cfg h hne
  · exact fun hnf => schedulesLoop_logs env.createSchedule cfg.schedules hnf n hn
  · exact fun hok hne => startConfigured_err_of_eventsLoop env cfg ⟨h, hok⟩ hne
  · exact fun hnf =>
      eventsLoop_logs env.createAddressable env.createScheduleEvent cfg.scheduleevents
        hv hnf q hq

/-- An environment in which one schedule and all addressables already exist
in metadata (CONFLICT) while the others are created fresh. -/
def envConflicts : StartEnv :=
  { allOkStart with
      createSchedule := fun m =>
        if m = "five-seconds" then COutcome.conflict else COutcome.ok,
      createAddressable := fun _ => COutcome.conflict }

/-- A configuration with two schedules and one device-command event. -/
def cfgSched : StartCfg :=
  { cfg0 with
      hasConfigToml := true,
      schedules := ["ten-seconds", "five-seconds"],
      scheduleevents := [("ev1", ⟨"five-seconds", "/api/v1/device/dev1/cmd"⟩)] }

/-- Witness for C7 at a concrete environment. -/
theorem c7_create_conflict_handling_witness :
    ((schedulesLoop envConflicts.createSchedule cfgSched.schedules).2 = Err.FAIL ↔
      cfgSched.schedules.any
        (fun m => decide (envConflicts.createSchedule m = COutcome.fail)) = true)
  ∧ ((schedulesLoop envConflicts.createSchedule cfgSched.schedules).2 = Err.OK ↔
      cfgSched.schedules.all
        (fun m => !(decide (envConflicts.createSchedule m = COutcome.fail))) = true)
  ∧ ((schedulesLoop envConflicts.createSchedule cfgSched.schedules).2 ≠ Err.OK →
      (startConfigured envConflicts cfgSched none).2 =
        (schedulesLoop envConflicts.createSchedule cfgSched.schedules).2)
  ∧ (cfgSched.schedules.all
        (fun m => !(decide (envConflicts.createSchedule m = COutcome.fail))) = true →
      (envConflicts.createSchedule "five-seconds" = COutcome.ok →
        Action.logInfo ("Created schedule " ++ "five-seconds")
          ∈ (schedulesLoop envConflicts.createSchedule cfgSched.schedules).1)
      ∧ (envConflicts.createSchedule "five-seconds" = COutcome.conflict →
        Action.logInfo ("Skipping already existing schedule " ++ "five-seconds")
          ∈ (schedulesLoop envConflicts.createSchedule cfgSched.schedules).1))
  ∧ ((eventsLoop envConflicts.createAddressable envConflicts.createScheduleEvent
        cfgSched.scheduleevents).2 = Err.FAIL ↔
      cfgSched.scheduleevents.any (fun r =>
        decide (envConflicts.createAddressable (r.1 ++ "_addr") = COutcome.fail) ||
        decide (envConflicts.createScheduleEvent r.1 = COutcome.fail)) = true)
  ∧ ((eventsLoop envConflicts.createAddressable envConflicts.createScheduleEvent
        cfgSched.scheduleevents).2 = Err.OK ↔
      cfgSched.scheduleevents.all (fun r =>
        !(decide (envConflicts.createAddressable (r.1 ++ "_addr") = COutcome.fail)) &&
        !(decide (envConflicts.createScheduleEvent r.1 = COutcome.fail))) = true)
  ∧ ((schedulesLoop envConflicts.createSchedule cfgSched.schedules).2 = Err.OK →
      (eventsLoop envConflicts.createAddressable envConflicts.createScheduleEvent
        cfgSched.scheduleevents).2 ≠ Err.OK →
      (startConfigured envConflicts cfgSched none).2 =
        (eventsLoop envConflicts.createAddressable envConflicts.createScheduleEvent
          cfgSched.scheduleevents).2)
  ∧ (cfgSched.scheduleevents.all (fun r =>
        !(decide (envConflicts.createAddressable (r.1 ++ "_addr") = COutcome.fail)) &&
        !(decide (envConflicts.createScheduleEvent r.1 = COutcome.fail))) = true →
      (envConflicts.createAddressable ("ev1" ++ "_addr") = COutcome.ok →
        Action.logInfo ("Created addressable " ++ ("ev1" ++ "_addr"))
          ∈ (eventsLoop envConflicts.createAddressable envConflicts.createScheduleEvent
              cfgSched.scheduleevents).1)
      ∧ (envConflicts.createAddressable ("ev1" ++ "_addr") = COutcome.conflict →
        Action.logInfo ("Skipping already existing addressable " ++ ("ev1" ++ "_addr"))
          ∈ (eventsLoop envConflicts.createAddressable envConflicts.createScheduleEvent
              cfgSched.scheduleevents).1)
      ∧ (envConflicts.createScheduleEvent "ev1" = COutcome.ok →
        Action.logInfo ("Created ScheduleEvent " ++ "ev1")
          ∈ (eventsLoop envConflicts.createAddressable envConflicts.createScheduleEvent
              cfgSched.scheduleevents).1)
      ∧ (envConflicts.createScheduleEvent "ev1" = COutcome.conflict →
        Action.logInfo ("Skipping already existing ScheduleEvent " ++ "ev1")
          ∈ (eventsLoop envConflicts.createAddressable envConflicts.createScheduleEvent
              cfgSched.scheduleevents).1)) :=
  c7_create_conflict_handling envConflicts cfgSched
    ⟨rfl, rfl, rfl, rfl, rfl, rfl, rfl, rfl, rfl, rfl⟩ (by decide)
    "five-seconds" (by decide)
    ("ev1", ⟨"five-seconds", "/api/v1/device/dev1/cmd"⟩) (by decide)

/-- With valid paths and successful fetches/parses, the fetched-events loop
stashes exactly one job per device-path event, holding the suffix of the
path after the device command root, with each job pushed onto the front of
the list. -/
theorem fetchLoop_jobs (gs : String → Bool) (freq : String → String)
    (parse : String → Except String Nat) :
    ∀ evs : List FetchedEvent,
    evs.all (fun e => schedEventPathOk e.path) = true →
    (∀ e ∈ evs, gs e.schedule = true) →
    (∀ e ∈ evs, (parse (freq e.schedule)).isOk = true) →
    ∀ sjobs,
    (fetchLoop gs freq parse evs sjobs).2.2 =
      ((evs.filter (fun e => devPathPre e.path)).map
        (fun e => e.path.drop devApiDevice.length)).reverse ++ sjobs := by
  intro evs
  induction evs with
  | nil => intro _ _ _ sjobs; simp [fetchLoop]
  | cons e rest ih =>
    intro hv hgs hparse sjobs
    simp only [List.all_cons, Bool.and_eq_true] at hv
    obtain ⟨hv1, hv2⟩ := hv
    have hg1 := hgs e (List.mem_cons_self e rest)
    have hp1 := hparse e (List.mem_cons_self e rest)
    obtain ⟨k, hk⟩ : ∃ k, parse (freq e.schedule) = Except.ok k := by
      cases hpp : parse (freq e.schedule)
      · rw [hpp] at hp1; simp [Except.isOk, Except.toBool] at hp1
      · exact ⟨_, rfl⟩
    have ihr := ih hv2 (fun x hx => hgs x (List.mem_cons_of_mem e hx))
      (fun x hx => hparse x (List.mem_cons_of_mem e hx))
    by_cases hd : e.path = discoveryPath
    · have hnpre : devPathPre discoveryPath = false := by decide
      simp [fetchLoop, hg1, hk, hd, hnpre, ihr, List.filter_cons]
    · have hpre : devPathPre e.path = true := by
        have hx := hv1
        simp only [schedEventPathOk, Bool.not_and, Bool.not_not,
          Bool.or_eq_true] at hx
        rcases hx with hx | hx
        · exact absurd (by simpa using hx) hd
        · exact hx
      simp [fetchLoop, hg1, hk, hd, hpre, List.filter_cons,
            List.reverse_cons, List.append_assoc]
      exact ihr _

/-- C9: a scheduled device-URL job stores exactly the suffix of the
configured path after the device command root (in metadata order, pushed
onto the front of svc->sjobs); on fire, dev_invoker issues a GET with that
suffix through the device dispatcher and emits an error log naming the URL
and the HTTP status exactly when the reply status is not a success status —
over the statuses the dispatcher can produce, not-200 coincides with
not-2xx. -/
theorem c9_device_url_jobs (gs : String → Bool) (freq : String → String)
    (parse : String → Except String Nat) (evs : List FetchedEvent)
    (dispatch : Method → String → Nat) (url : String)
    (hv : evs.all (fun e => schedEventPathOk e.path) = true)
    (hgs : ∀ e ∈ evs, gs e.schedule = true)
    (hparse : ∀ e ∈ evs, (parse (freq e.schedule)).isOk = true)
    (hrc : dispatch Method.GET url ∈ dispatcherStatuses) :
    (fetchLoop gs freq parse evs []).2.2 =
      ((evs.filter (fun e => devPathPre e.path)).map
        (fun e => e.path.drop devApiDevice.length)).reverse
  ∧ ((dev_invoker dispatch url).isSome = true ↔
      ¬ (200 ≤ dispatch Method.GET url ∧ dispatch Method.GET url < 300))
  ∧ ((dev_invoker dispatch url).isSome = true →
      dev_invoker dispatch url =
        some ("Scheduled request to " ++ devApiDevice ++ url ++ ": HTTP " ++
          toString (dispatch Method.GET url))) := by
  refine ⟨by simpa using fetchLoop_jobs gs freq parse evs hv hgs hparse [], ?_, ?_⟩
  · simp only [dispatcherStatuses, List.mem_cons, List.not_mem_nil, or_false] at hrc
    rcases hrc with h | h | h | h | h | h <;>
      simp [dev_invoker, MHD_HTTP_OK, h]
  · intro hs
    by_cases h : dispatch Method.GET url = MHD_HTTP_OK
    · simp [dev_invoker, h] at hs
    · simp [dev_invoker, h]

/-- Witness for C9 at a concrete environment. -/
theorem c9_device_url_jobs_witness :
    (fetchLoop (fun _ => true) (fun _ => "PT5S") (fun _ => Except.ok 5)
        [⟨"e1", "s1", "/api/v1/device/dev1/temperature"⟩] []).2.2 =
      (([⟨"e1", "s1", "/api/v1/device/dev1/temperature"⟩] : List FetchedEvent).filter
          (fun e => devPathPre e.path) |>.map
            (fun e => e.path.drop devApiDevice.length)).reverse
  ∧ (((dev_invoker (fun _ _ => 404) "dev1/temperature").isSome = true) ↔
      ¬ (200 ≤ (fun (_ : Method) (_ : String) => 404) Method.GET "dev1/temperature"
        ∧ (fun (_ : Method) (_ : String) => 404) Method.GET "dev1/temperature" < 300))
  ∧ ((dev_invoker (fun _ _ => 404) "dev1/temperature").isSome = true →
      dev_invoker (fun _ _ => 404) "dev1/temperature" =
        some ("Scheduled request to " ++ devApiDevice ++ "dev1/temperature" ++ ": HTTP " ++
          toString ((fun (_ : Method) (_ : String) => 404) Method.GET "dev1/temperature"))) :=
  c9_device_url_jobs (fun _ => true) (fun _ => "PT5S") (fun _ => Except.ok 5)
    [⟨"e1", "s1", "/api/v1/device/dev1/temperature"⟩] (fun _ _ => 404)
    "dev1/temperature" (by decide) (by decide) (by decide) (by decide)

end EdgexService
